import Mathlib

/-!
# Evalyn front end (`src/evalyn_icp_frontend/src/App.js`)

A shallow embedding of the class `App`: its five fields, the two asynchronous
click handlers `#uploadVideo` and `#checkResults`, the helpers `#showSuccess`
and `#showError`, and the calls of `#render`.

Conventions of the embedding.

* The fields of `App`, the part of the document the handlers read and write
  (`Dom`) and the sequence of calls that leave the class (`Event`) are carried
  explicitly in a `World`.
* An `async` handler is cut at its remote call: `…Begin` is the part up to
  and including the call, `…Resume` is the continuation that runs when the
  promise settles, with the settled value (`Except.ok`) or the rejection
  (`Except.error`) as its argument. The composition of the two is the
  handler run without anything interleaved.
* The document is taken to be the one `#render()` builds: every
  `getElementById` of the handlers finds its element, and `#render()` does
  not throw.
* Built-ins of the JavaScript host whose result is engine or locale dependent
  (`JSON.parse`, `toUpperCase`, `toLocaleString`, the text of a `TypeError`)
  are fields of `Host`.
-/

namespace Evalyn

/-! ## JavaScript values -/

/-- A thrown value, reduced to the one property the `catch` blocks read,
`error.message`. -/
structure JsError where
  message : String
deriving DecidableEq, Repr

/-- The values `JSON.parse` can produce, and `undefined` for a property that
is not there. `num n` is the Number of integral value `n`, of a magnitude
below `10 ^ 21`, which `ToString` prints as its decimal digits; Numbers with
a fractional part are outside the model. An `obj` lists its own properties,
each name once. -/
inductive JsVal where
  | undefined
  | null
  | bool (b : Bool)
  | num (n : Int)
  | str (s : String)
  | arr (items : List JsVal)
  | obj (fields : List (String × JsVal))
deriving Repr

/-- The built-ins of the host the handlers call. -/
structure Host where
  /-- `JSON.parse(text)`: the parsed value, or the thrown `SyntaxError`. -/
  jsonParse : String → Except JsError JsVal
  /-- The empty text is not JSON: `JSON.parse('')` throws in every engine. -/
  jsonParse_empty : ∃ e, jsonParse "" = Except.error e
  /-- `String.prototype.toUpperCase`. -/
  toUpperCase : String → String
  /-- `new Date(Number(t) / 1000000).toLocaleString()` for a timestamp `t`
  in nanoseconds. -/
  timestampToLocaleString : Int → String
  /-- The message of the `TypeError` thrown when property `name` is read
  from `undefined` or `null` (the first argument says which). -/
  typeErrorMessage : String → String → String

/-- Interpolation of an array element by `Array.prototype.join`, and of a
value in a template literal (`ToString`). -/
def JsVal.toStr : JsVal → String
  | .undefined => "undefined"
  | .null => "null"
  | .bool b => if b then "true" else "false"
  | .num n => toString n
  | .str s => s
  | .arr items => joinItems items
  | .obj _ => "[object Object]"
where
  /-- The elements of an array joined with commas; `undefined` and `null`
  elements give the empty text. -/
  joinItems : List JsVal → String
    | [] => ""
    | [x] => itemStr x
    | x :: y :: rest => itemStr x ++ "," ++ joinItems (y :: rest)
  /-- One element inside `join`. -/
  itemStr : JsVal → String
    | .undefined => ""
    | .null => ""
    | v => JsVal.toStr v

/-- The property read `v.name`, for the property names the program reads
(none of them is defined on a prototype): a `TypeError` on `undefined` and
`null`, the own property of an object or `undefined`, and `undefined` on
every other value. -/
def JsVal.get (host : Host) (v : JsVal) (name : String) : Except JsError JsVal :=
  match v with
  | .undefined => .error ⟨host.typeErrorMessage "undefined" name⟩
  | .null => .error ⟨host.typeErrorMessage "null" name⟩
  | .obj fields => .ok ((fields.lookup name).getD .undefined)
  | _ => .ok .undefined

/-- The code points `String.prototype.trim` strips: ECMAScript `WhiteSpace`
(TAB, VT, FF, ZWNBSP and the Unicode space separators) and `LineTerminator`
(LF, CR, LS, PS). -/
def isJsWhiteSpace (c : Char) : Bool :=
  let n := c.toNat
  n == 0x09 || n == 0x0A || n == 0x0B || n == 0x0C || n == 0x0D || n == 0x20
    || n == 0xA0 || n == 0x1680 || (0x2000 ≤ n && n ≤ 0x200A) || n == 0x2028
    || n == 0x2029 || n == 0x202F || n == 0x205F || n == 0x3000 || n == 0xFEFF

/-- `String.prototype.trim`. -/
def trim (s : String) : String :=
  ⟨((s.data.dropWhile isJsWhiteSpace).reverse.dropWhile isJsWhiteSpace).reverse⟩

/-! ## State -/

/-- The fields of `class App`. -/
structure App where
  greeting : String
  uploadResult : String
  analysisResult : String
  uploadLoading : Bool
  resultLoading : Bool
deriving DecidableEq, Repr

/-- The `File` in `fileInput.files[0]`, with the two properties the handler
reads: its `name` and its `size` in bytes. Its content, which
`file.arrayBuffer()` resolves with, is not inspected by the handler and is
identified with the file. -/
structure File where
  name : String
  size : Nat
deriving DecidableEq, Repr

/-- What `#showSuccess` and `#showError` write on an element. -/
structure Box where
  innerHTML : String
  display : String
deriving DecidableEq, Repr

/-- The two elements `#showSuccess` and `#showError` are called with. -/
inductive ElementId where
  | uploadResult
  | analysisResult
deriving DecidableEq, Repr

/-- The part of the document the handlers read or write directly. -/
structure Dom where
  /-- `document.getElementById('videoFile').files[0]`, `none` when no file
  is selected. -/
  videoFile : Option File
  /-- `document.getElementById('uploadBtn').disabled`. -/
  uploadBtnDisabled : Bool
  /-- `document.getElementById('videoId').value`. -/
  videoId : String
  /-- The element with id `uploadResult`. -/
  uploadResult : Box
  /-- The element with id `analysisResult`. -/
  analysisResult : Box
deriving DecidableEq, Repr

/-- The calls that leave the class, in the order they are made: `#render`
(with the fields it renders from) and the two calls of the backend actor,
`analyzeVideo` with the content of a file as a `Uint8Array`. -/
inductive Event where
  | render (app : App)
  | analyzeVideo (file : File)
  | getAnalysisResult (videoId : String)
deriving DecidableEq, Repr

/-- The fields, the document and the calls made so far (oldest first). -/
structure World where
  app : App
  dom : Dom
  log : List Event
deriving DecidableEq, Repr

/-- The arguments of the `getAnalysisResult` calls in a log. -/
def getAnalysisResultCalls (log : List Event) : List String :=
  log.filterMap fun e => match e with
    | .getAnalysisResult videoId => some videoId
    | _ => none

/-- The states `#render` was called with, in a log. -/
def renderCalls (log : List Event) : List App :=
  log.filterMap fun e => match e with
    | .render app => some app
    | _ => none

/-! ## Helpers of the class -/

/-- Writes a box of one of the two result elements. -/
def Dom.setBox (dom : Dom) (elementId : ElementId) (box : Box) : Dom :=
  match elementId with
  | .uploadResult => { dom with uploadResult := box }
  | .analysisResult => { dom with analysisResult := box }

/-- Method `#showSuccess(elementId, message)`. -/
def showSuccess (elementId : ElementId) (message : String) (w : World) : World :=
  let box : Box :=
    { innerHTML := "<div class=\"success-message\">" ++ message ++ "</div>", display := "block" }
  { w with dom := w.dom.setBox elementId box }

/-- Method `#showError(elementId, message)`. -/
def showError (elementId : ElementId) (message : String) (w : World) : World :=
  let box : Box :=
    { innerHTML := "<div class=\"error-message\">" ++ message ++ "</div>", display := "block" }
  { w with dom := w.dom.setBox elementId box }

/-- Method `#render()`: the view is rebuilt by `lit-html` from the fields of
the class; the call and the fields it was made with are recorded. -/
def render (w : World) : World :=
  { w with log := w.log ++ [Event.render w.app] }

/-! ## Upload flow -/

/-- `50 * 1024 * 1024`. -/
def maxFileSize : Nat := 50 * 1024 * 1024

/-- The integer `n` that `(size / 1024 / 1024).toFixed(2)` prints: the one
for which `n / 100` is nearest to the exact quotient, the larger on a tie
(both divisions are by a power of two, so the quotient of a `size` below
`2 ^ 53` is exact). -/
def hundredthsOfMB (size : Nat) : Nat :=
  (size * 100 + 524288) / 1048576

/-- The digits `toFixed(2)` prints for the integer `n` of hundredths: the
decimal digits of `n`, padded on the left with zeros to three digits, with a
point before the last two. -/
def fixed2 (n : Nat) : String :=
  let m := Nat.toDigits 10 n
  let m := List.replicate (3 - m.length) '0' ++ m
  String.mk (m.take (m.length - 2)) ++ "." ++ String.mk (m.drop (m.length - 2))

/-- `(size / 1024 / 1024).toFixed(2)`. -/
def sizeInMB (size : Nat) : String :=
  fixed2 (hundredthsOfMB size)

/-- What `analyzeVideo` resolves with. -/
structure UploadResponse where
  videoId : String
  status : String
deriving DecidableEq, Repr

/-- The template literal `resultText` of `#uploadVideo`. -/
def uploadResultText (response : UploadResponse) (file : File) : String :=
  "✅ Upload Successful!\n\nVideo ID: " ++ response.videoId
    ++ "\nStatus: " ++ response.status
    ++ "\nFile: " ++ file.name
    ++ "\nSize: " ++ sizeInMB file.size ++ " MB"
    ++ "\n\n💡 Copy the Video ID above and use it in the \"Check Results\" section below to see your analysis results!"

/-- The handler `#uploadVideo` up to and including the call of
`analyzeVideo`: the two validations, then the loading state, `#render()`
and the call with the content of the file. The read of the content between
the two, `await file.arrayBuffer()`, is taken to succeed and nothing is
interleaved at it. Returns the file the continuation closes over when the
call was made. -/
def uploadVideoBegin (w : World) : World × Option File :=
  match w.dom.videoFile with
  | none => (showError .uploadResult "Please select a video file first!" w, none)
  | some file =>
    if file.size > maxFileSize then
      (showError .uploadResult "File too large! Please select a video under 50MB." w, none)
    else
      let w := { w with dom := { w.dom with uploadBtnDisabled := true } }
      let w := { w with app := { w.app with uploadLoading := true } }
      let w := { w with app := { w.app with uploadResult := "" } }
      let w := render w
      let w := { w with log := w.log ++ [Event.analyzeVideo file] }
      (w, some file)

/-- The `catch` block of `#uploadVideo`. -/
def uploadVideoCatch (error : JsError) (w : World) : World :=
  let w := { w with app := { w.app with uploadLoading := false } }
  let w := { w with dom := { w.dom with uploadBtnDisabled := false } }
  let w := showError .uploadResult ("Upload failed: " ++ error.message) w
  { w with app := { w.app with uploadResult := "Upload failed: " ++ error.message } }

/-- The continuation of `#uploadVideo` after `await analyzeVideo(...)`. -/
def uploadVideoResume (file : File) (answer : Except JsError UploadResponse)
    (w : World) : World :=
  match answer with
  | .error error => uploadVideoCatch error w
  | .ok response =>
    let w := { w with app := { w.app with uploadLoading := false } }
    let w := { w with dom := { w.dom with uploadBtnDisabled := false } }
    let resultText := uploadResultText response file
    let w := showSuccess .uploadResult resultText w
    let w := { w with app := { w.app with uploadResult := resultText } }
    { w with dom := { w.dom with videoId := response.videoId } }

/-- The handler `#uploadVideo`, run to its end with `answer` as the outcome
of the remote call (read only when the call is made). -/
def uploadVideo (answer : Except JsError UploadResponse) (w : World) : World :=
  match uploadVideoBegin w with
  | (w, none) => w
  | (w, some file) => uploadVideoResume file answer w

/-! ## Poll flow -/

/-- The record inside the optional `getAnalysisResult` resolves with. The
optional text `aiResponse` arrives as an array of no or one string. -/
structure AnalysisRecord where
  videoId : String
  status : String
  timestamp : Int
  aiResponse : List String
deriving DecidableEq, Repr

/-- What `getAnalysisResult` can resolve with, as the handler sees it: a
value that is `undefined` or `null`, or an array of records. The generated
actor hands an optional over as an array: absent is `[]`, present is `[r]`. -/
inductive PollResponse where
  | undefined
  | null
  | array (items : List AnalysisRecord)
deriving DecidableEq, Repr

/-- How the actor encodes the optional record. -/
def PollResponse.ofOption : Option AnalysisRecord → PollResponse
  | none => .array []
  | some r => .array [r]

/-- `ToBoolean`: `undefined` and `null` are falsy, every array (the empty one
too) is truthy. -/
def PollResponse.truthy : PollResponse → Bool
  | .undefined => false
  | .null => false
  | .array _ => true

/-- The indexing `response[0]` of a truthy response: the first element, or
`undefined` (here `none`) when there is none. -/
def PollResponse.first : PollResponse → Option AnalysisRecord
  | .array (r :: _) => some r
  | _ => none

/-- The text of the not-found branch. -/
def notFoundText : String :=
  "Video ID not found! Please check the ID and try again."

/-- The first template literal assigned to `resultText` in `#checkResults`. -/
def resultHeader (host : Host) (analysis : AnalysisRecord) : String :=
  "📊 Analysis Results\n\nVideo ID: " ++ analysis.videoId
    ++ "\nStatus: " ++ host.toUpperCase analysis.status
    ++ "\nTimestamp: " ++ host.timestampToLocaleString analysis.timestamp
    ++ "\n\n"

/-- The chained read `v.a.b`. -/
def get2 (host : Host) (v : JsVal) (a b : String) : Except JsError JsVal := do
  let x ← v.get host a
  x.get host b

/-- The template literal appended to `resultText` in the `completed`
branch, its interpolations evaluated left to right. -/
def aiReportText (host : Host) (aiData : JsVal) : Except JsError String := do
  let overall_score ← get2 host aiData "grading" "overall_score"
  let creativity ← get2 host aiData "grading" "creativity"
  let clarity ← get2 host aiData "grading" "clarity"
  let summary ← aiData.get host "summary"
  let confidence ← get2 host aiData "performance" "confidence"
  let engagement ← get2 host aiData "performance" "engagement"
  let time_management ← get2 host aiData "performance" "time_management"
  pure ("🎯 AI Analysis Results:\n\n📈 GRADING:\n"
    ++ "• Overall Score: " ++ overall_score.toStr ++ "/100" ++ "\n"
    ++ "• Creativity: " ++ creativity.toStr ++ "/100" ++ "  \n"
    ++ "• Clarity: " ++ clarity.toStr ++ "/100" ++ "\n\n"
    ++ "📝 SUMMARY:\n" ++ summary.toStr ++ "\n\n🎭 PERFORMANCE METRICS:\n"
    ++ "• Confidence: " ++ confidence.toStr ++ "/100" ++ "\n"
    ++ "• Engagement: " ++ engagement.toStr ++ "/100" ++ "\n"
    ++ "• Time Management: " ++ time_management.toStr ++ "/100")

/-- The `if … else if …` chain of `#checkResults`: what is appended to
`resultText`. `analysis.aiResponse` is an array, hence truthy;
`analysis.aiResponse[0]` is truthy when there is a first string and it is not
empty. -/
def resultBody (host : Host) (analysis : AnalysisRecord) : Except JsError String :=
  if analysis.status = "completed" ∧ (analysis.aiResponse.head?.getD "") ≠ "" then do
    let aiData ← host.jsonParse (analysis.aiResponse.head?.getD "")
    aiReportText host aiData
  else if analysis.status = "pending" then
    pure "⏳ Your video is queued for processing. Please check back in a few moments."
  else if analysis.status = "processing" then
    pure "🔄 AI is currently analyzing your video. This may take a few minutes."
  else if analysis.status = "failed" then
    pure "❌ Analysis failed. Please try uploading the video again."
  else
    pure ""

/-- The statements of `#checkResults` from `const analysis = response[0]` to
the value assigned to `this.analysisResult`, for the element `response[0]`
(`none` is `undefined`, on which the read of `status` throws). -/
def analysisHtml (host : Host) (analysis : Option AnalysisRecord) : Except JsError String :=
  match analysis with
  | none => .error ⟨host.typeErrorMessage "undefined" "status"⟩
  | some analysis => do
    let statusClass := "status-" ++ analysis.status
    let resultText := resultHeader host analysis
    let body ← resultBody host analysis
    let resultText := resultText ++ body
    pure ("<div class=\"" ++ statusClass ++ "\">" ++ resultText ++ "</div>")

/-- The handler `#checkResults` up to and including the call of
`getAnalysisResult`: the validation, then the loading state, `#render()` and
the call with the trimmed value of the input. Returns the argument of the
call when it was made. -/
def checkResultsBegin (w : World) : World × Option String :=
  if trim w.dom.videoId = "" then
    (showError .analysisResult "Please enter a Video ID!" w, none)
  else
    let w := { w with app := { w.app with resultLoading := true } }
    let w := { w with app := { w.app with analysisResult := "" } }
    let w := render w
    let videoId := trim w.dom.videoId
    ({ w with log := w.log ++ [Event.getAnalysisResult videoId] }, some videoId)

/-- The `catch` block of `#checkResults`. -/
def checkResultsCatch (error : JsError) (w : World) : World :=
  let w := { w with app := { w.app with resultLoading := false } }
  let w := showError .analysisResult ("Error checking results: " ++ error.message) w
  { w with app := { w.app with analysisResult := "Error checking results: " ++ error.message } }

/-- The continuation of `#checkResults` after `await getAnalysisResult(...)`. -/
def checkResultsResume (host : Host) (answer : Except JsError PollResponse)
    (w : World) : World :=
  match answer with
  | .error error => checkResultsCatch error w
  | .ok response =>
    let w := { w with app := { w.app with resultLoading := false } }
    if !response.truthy then
      let w := showError .analysisResult notFoundText w
      { w with app := { w.app with analysisResult := notFoundText } }
    else
      match analysisHtml host response.first with
      | .error error => checkResultsCatch error w
      | .ok html => { w with app := { w.app with analysisResult := html } }

/-- The handler `#checkResults`, run to its end with `answer` as the outcome
of the remote call (read only when the call is made). -/
def checkResults (host : Host) (answer : Except JsError PollResponse) (w : World) : World :=
  match checkResultsBegin w with
  | (w, none) => w
  | (w, some _) => checkResultsResume host answer w

/-- The user replaces the text of the input `videoId`. -/
def typeVideoId (text : String) (w : World) : World :=
  { w with dom := { w.dom with videoId := text } }

/-- Two polls whose responses arrive in the opposite order: the user types
`idA` and clicks, types `idB` and clicks while the first call is in flight,
then the continuation of the second call runs with `answerB`, and after it
the continuation of the first call with `answerA`. -/
def overlappingPolls (host : Host) (idA idB : String)
    (answerA answerB : Except JsError PollResponse) (w : World) : World :=
  let w := typeVideoId idA w
  let w := (checkResultsBegin w).1
  let w := typeVideoId idB w
  let w := (checkResultsBegin w).1
  let w := checkResultsResume host answerB w
  checkResultsResume host answerA w

/-! ## Vocabulary of the properties -/

/-- The text `part` occurs in `whole` as a contiguous piece. -/
def occursIn (part whole : String) : Prop :=
  part.data <:+: whole.data

/-- The own property `name` of an object, `none` on every other value and
for a property that is not there. -/
def JsVal.field (v : JsVal) (name : String) : Option JsVal :=
  match v with
  | .obj fields => fields.lookup name
  | _ => none

/-- The seven fields of a well-formed report (`AiReport` in the data model of
the specification). -/
structure AiReport where
  overall_score : Int
  creativity : Int
  clarity : Int
  summary : String
  confidence : Int
  engagement : Int
  time_management : Int
deriving DecidableEq, Repr

/-- Reads a parsed payload as a well-formed report: an object whose
`grading` and `performance` are objects holding the six Number scores and
whose `summary` is a String. Further properties, at either level, are
allowed and ignored. -/
def asReport (aiData : JsVal) : Option AiReport :=
  match aiData.field "grading", aiData.field "summary", aiData.field "performance" with
  | some grading, some (.str summary), some performance =>
    match grading.field "overall_score", grading.field "creativity",
        grading.field "clarity", performance.field "confidence",
        performance.field "engagement", performance.field "time_management" with
    | some (.num overall_score), some (.num creativity), some (.num clarity),
        some (.num confidence), some (.num engagement), some (.num time_management) =>
      some { overall_score, creativity, clarity, summary, confidence, engagement,
             time_management }
    | _, _, _, _, _, _ => none
  | _, _, _ => none

/-! ## A host and a start state for closed examples -/

/-- A report as `JSON.parse` returns it. -/
def sampleReport : JsVal :=
  .obj [("grading", .obj [("overall_score", .num 85), ("creativity", .num 70),
          ("clarity", .num 90)]),
        ("summary", .str "Clear and confident."),
        ("performance", .obj [("confidence", .num 80), ("engagement", .num 75),
          ("time_management", .num 60)]),
        ("notes", .str "internal")]

/-- The JSON text of `sampleReport`. -/
def sampleReportText : String :=
  "\x7b\"grading\":\x7b\"overall_score\":85,\"creativity\":70,\"clarity\":90\x7d,"
    ++ "\"summary\":\"Clear and confident.\","
    ++ "\"performance\":\x7b\"confidence\":80,\"engagement\":75,\"time_management\":60\x7d,"
    ++ "\"notes\":\"internal\"\x7d"

/-- A host for the closed examples. Its `JSON.parse` is a stand-in that
parses the text `sampleReportText` and rejects every other text (the examples
use it on that text, on the empty text and on `not json`), its `toUpperCase`
is the one of ASCII letters, and a timestamp is printed as its number of
milliseconds. -/
def sampleHost : Host where
  jsonParse s :=
    if s = sampleReportText then .ok sampleReport
    else .error ⟨"Unexpected token"⟩
  jsonParse_empty := ⟨⟨"Unexpected token"⟩, by simp [sampleReportText]⟩
  toUpperCase s := String.mk (s.data.map Char.toUpper)
  timestampToLocaleString t := toString (t / 1000000)
  typeErrorMessage base name :=
    "Cannot read properties of " ++ base ++ " (reading " ++ name ++ ")"

/-- The state the constructor leaves, with nothing selected or typed. -/
def initialWorld : World where
  app := { greeting := "", uploadResult := "", analysisResult := "",
           uploadLoading := false, resultLoading := false }
  dom := { videoFile := none, uploadBtnDisabled := false, videoId := "",
           uploadResult := { innerHTML := "", display := "none" },
           analysisResult := { innerHTML := "", display := "none" } }
  log := [Event.render { greeting := "", uploadResult := "", analysisResult := "",
                         uploadLoading := false, resultLoading := false }]

/-- A file named `talk.mp4` of the given size. -/
def fileOfSize (size : Nat) : File :=
  { name := "talk.mp4", size := size }

/-- The start state with `file` selected. -/
def worldWithFile (file : File) : World :=
  { initialWorld with dom := { initialWorld.dom with videoFile := some file } }

/-! ## Lemmas on the helpers and on the two handlers -/


theorem checkResults_of_nonblank (host : Host) (answer : Except JsError PollResponse) (w : World)
    (h : trim w.dom.videoId ≠ "") :
    checkResults host answer w = checkResultsResume host answer (checkResultsBegin w).1 := by
  simp [checkResults, checkResultsBegin, h]

theorem error_ne_notFound (m : String) : "Error checking results: " ++ m ≠ notFoundText := by
  intro h
  have h2 := congrArg (fun s => s.data.head?) h
  simp [notFoundText] at h2

theorem getAnalysisResultCalls_append (a b : List Event) :
    getAnalysisResultCalls (a ++ b) = getAnalysisResultCalls a ++ getAnalysisResultCalls b := by
  simp [getAnalysisResultCalls]

theorem checkResultsResume_log (host : Host) (answer : Except JsError PollResponse) (w : World) :
    (checkResultsResume host answer w).log = w.log := by
  unfold checkResultsResume
  cases answer with
  | error e => rfl
  | ok response =>
    cases response with
    | undefined => rfl
    | null => rfl
    | array items =>
      simp only [PollResponse.truthy]
      cases analysisHtml host (PollResponse.array items).first <;> rfl

theorem uploadVideo_of_valid (answer : Except JsError UploadResponse) (w : World)
    (file : File) (h : w.dom.videoFile = some file) (hs : file.size ≤ maxFileSize) :
    uploadVideo answer w = uploadVideoResume file answer (uploadVideoBegin w).1 := by
  simp [uploadVideo, uploadVideoBegin, h, Nat.not_lt.2 hs]

theorem uploadVideoBegin_of_valid (w : World)
    (file : File) (h : w.dom.videoFile = some file) (hs : file.size ≤ maxFileSize) :
    (uploadVideoBegin w).1.log
      = w.log ++ [Event.render { w.app with uploadLoading := true, uploadResult := "" },
                  Event.analyzeVideo file] := by
  simp [uploadVideoBegin, h, Nat.not_lt.2 hs, render]

theorem uploadVideoResume_log (file : File) (answer : Except JsError UploadResponse)
    (w : World) : (uploadVideoResume file answer w).log = w.log := by
  cases answer <;> rfl

theorem toDigitsCore_acc (fuel n : Nat) (ds : List Char) :
    Nat.toDigitsCore 10 fuel n ds = Nat.toDigitsCore 10 fuel n [] ++ ds := by
  induction fuel generalizing n ds with
  | zero => simp [Nat.toDigitsCore]
  | succ f ih =>
    simp only [Nat.toDigitsCore]
    split
    · simp
    · rw [ih (n / 10) (Nat.digitChar (n % 10) :: ds), ih (n / 10) [Nat.digitChar (n % 10)]]
      simp

theorem toDigitsCore_fuel (f g n : Nat) (hf : n < f) (hg : n < g) :
    Nat.toDigitsCore 10 f n [] = Nat.toDigitsCore 10 g n [] := by
  induction f generalizing n g with
  | zero => omega
  | succ f ih =>
    cases g with
    | zero => omega
    | succ g =>
      simp only [Nat.toDigitsCore]
      split
      · rfl
      · rename_i h
        rw [toDigitsCore_acc f, toDigitsCore_acc g,
          ih g (n / 10) (by omega) (by omega)]

theorem toDigits_step (n : Nat) (h : 10 ≤ n) :
    Nat.toDigits 10 n = Nat.toDigits 10 (n / 10) ++ [Nat.digitChar (n % 10)] := by
  unfold Nat.toDigits
  rw [Nat.toDigitsCore]
  have h0 : n / 10 ≠ 0 := by omega
  simp only [h0, if_false]
  rw [toDigitsCore_acc, toDigitsCore_fuel n (n / 10 + 1) (n / 10) (by omega) (by omega)]

theorem toDigits_length_pos (n : Nat) : 0 < (Nat.toDigits 10 n).length := by
  unfold Nat.toDigits
  rw [Nat.toDigitsCore]
  split
  · simp
  · rw [toDigitsCore_acc]; simp

theorem fixed2_small (n : Nat) (h : n < 100) :
    fixed2 n = Nat.repr (n / 100) ++ "."
      ++ String.mk [Nat.digitChar (n / 10 % 10), Nat.digitChar (n % 10)] := by
  interval_cases n <;> rfl

theorem fixed2_eq (n : Nat) :
    fixed2 n = Nat.repr (n / 100) ++ "."
      ++ String.mk [Nat.digitChar (n / 10 % 10), Nat.digitChar (n % 10)] := by
  by_cases h : n < 100
  · exact fixed2_small n h
  · have h1 : Nat.toDigits 10 n = Nat.toDigits 10 (n / 100)
        ++ [Nat.digitChar (n / 10 % 10), Nat.digitChar (n % 10)] := by
      rw [toDigits_step n (by omega), toDigits_step (n / 10) (by omega),
        Nat.div_div_eq_div_mul]
      simp
    have hpos := toDigits_length_pos (n / 100)
    unfold fixed2
    simp only [h1, List.length_append, List.length_cons, List.length_nil]
    have h3 : 3 - ((Nat.toDigits 10 (n / 100)).length + (0 + 1 + 1)) = 0 := by omega
    simp [h3, Nat.repr, List.asString]

theorem occursIn_of_eq (whole pre part post : String) (h : whole = pre ++ part ++ post) :
    occursIn part whole := by
  refine ⟨pre.data, post.data, ?_⟩
  rw [h]
  simp [String.data_append]

theorem hundredthsOfMB_nearest (size : Nat) :
    2 * (hundredthsOfMB size * 1048576) ≤ 200 * size + 1048576
      ∧ 200 * size < 2 * (hundredthsOfMB size * 1048576) + 1048576 := by
  unfold hundredthsOfMB
  omega

theorem uploadVideo_success (w : World) (file : File) (response : UploadResponse)
    (hfile : w.dom.videoFile = some file) (hsize : file.size ≤ maxFileSize) :
    (uploadVideo (.ok response) w).app.uploadResult = uploadResultText response file
      ∧ (uploadVideo (.ok response) w).app.uploadLoading = false
      ∧ (uploadVideo (.ok response) w).dom.videoId = response.videoId := by
  rw [uploadVideo_of_valid _ w file hfile hsize]
  exact ⟨rfl, rfl, rfl⟩

theorem uploadVideo_log_of_valid (answer : Except JsError UploadResponse) (w : World)
    (file : File) (hfile : w.dom.videoFile = some file) (hsize : file.size ≤ maxFileSize) :
    (uploadVideo answer w).log
      = w.log ++ [Event.render { w.app with uploadLoading := true, uploadResult := "" },
                  Event.analyzeVideo file] := by
  rw [uploadVideo_of_valid answer w file hfile hsize, uploadVideoResume_log,
    uploadVideoBegin_of_valid w file hfile hsize]

theorem checkResults_log_of_nonblank (host : Host) (answer : Except JsError PollResponse)
    (w : World) (hid : trim w.dom.videoId ≠ "") :
    (checkResults host answer w).log
      = w.log ++ [Event.render { w.app with resultLoading := true, analysisResult := "" },
                  Event.getAnalysisResult (trim w.dom.videoId)] := by
  rw [checkResults_of_nonblank host answer w hid, checkResultsResume_log]
  simp [checkResultsBegin, hid, render]

theorem checkResultsResume_loading (host : Host) (answer : Except JsError PollResponse)
    (w : World) : (checkResultsResume host answer w).app.resultLoading = false := by
  unfold checkResultsResume
  cases answer with
  | error e => rfl
  | ok response =>
    cases response with
    | undefined => rfl
    | null => rfl
    | array items =>
      simp only [PollResponse.truthy]
      cases analysisHtml host (PollResponse.array items).first <;> rfl

theorem checkResultsResume_result (host : Host) (answer : Except JsError PollResponse)
    (w v : World) :
    (checkResultsResume host answer w).app.analysisResult
      = (checkResultsResume host answer v).app.analysisResult := by
  unfold checkResultsResume
  cases answer with
  | error e => rfl
  | ok response =>
    cases response with
    | undefined => rfl
    | null => rfl
    | array items =>
      simp only [PollResponse.truthy]
      cases analysisHtml host (PollResponse.array items).first <;> rfl

theorem checkResults_present (host : Host) (w : World) (r : AnalysisRecord)
    (hid : trim w.dom.videoId ≠ "") :
    (checkResults host (.ok (PollResponse.ofOption (some r))) w).app.resultLoading = false
    ∧ (∀ body, resultBody host r = .ok body →
        (checkResults host (.ok (PollResponse.ofOption (some r))) w).app.analysisResult
          = "<div class=\"" ++ ("status-" ++ r.status) ++ "\">"
              ++ (resultHeader host r ++ body) ++ "</div>")
    ∧ (∀ error, resultBody host r = .error error →
        (checkResults host (.ok (PollResponse.ofOption (some r))) w).app.analysisResult
            = "Error checking results: " ++ error.message
        ∧ (checkResults host (.ok (PollResponse.ofOption (some r))) w).dom.analysisResult.innerHTML
            = "<div class=\"error-message\">" ++ ("Error checking results: " ++ error.message)
                ++ "</div>") := by
  rw [checkResults_of_nonblank host _ w hid]
  refine ⟨checkResultsResume_loading _ _ _, ?_, ?_⟩
  · intro body hb
    simp [checkResultsResume, PollResponse.ofOption, PollResponse.truthy, PollResponse.first,
      analysisHtml, hb, bind, Except.bind, pure, Except.pure]
  · intro error hb
    simp [checkResultsResume, PollResponse.ofOption, PollResponse.truthy, PollResponse.first,
      analysisHtml, hb, bind, Except.bind, checkResultsCatch, showError, Dom.setBox]

theorem get_of_field (host : Host) (v x : JsVal) (name : String)
    (h : v.field name = some x) : v.get host name = .ok x := by
  cases v <;> simp [JsVal.field] at h
  simp [JsVal.get, h]

theorem get2_of_field (host : Host) (v x y : JsVal) (a b : String)
    (hx : v.field a = some x) (hy : x.field b = some y) : get2 host v a b = .ok y := by
  simp [get2, get_of_field host v x a hx, get_of_field host x y b hy, bind, Except.bind]

theorem aiReportText_of_report (host : Host) (aiData : JsVal) (report : AiReport)
    (h : asReport aiData = some report) :
    aiReportText host aiData
      = .ok ("🎯 AI Analysis Results:\n\n📈 GRADING:\n"
          ++ "• Overall Score: " ++ toString report.overall_score ++ "/100" ++ "\n"
          ++ "• Creativity: " ++ toString report.creativity ++ "/100" ++ "  \n"
          ++ "• Clarity: " ++ toString report.clarity ++ "/100" ++ "\n\n"
          ++ "📝 SUMMARY:\n" ++ report.summary ++ "\n\n🎭 PERFORMANCE METRICS:\n"
          ++ "• Confidence: " ++ toString report.confidence ++ "/100" ++ "\n"
          ++ "• Engagement: " ++ toString report.engagement ++ "/100" ++ "\n"
          ++ "• Time Management: " ++ toString report.time_management ++ "/100") := by
  unfold asReport at h
  split at h
  · rename_i g s p hg hs hp
    split at h
    · rename_i n1 n2 n3 n4 n5 n6 h1 h2 h3 h4 h5 h6
      simp only [Option.some.injEq] at h
      subst h
      simp [aiReportText, get2_of_field host aiData g _ _ _ hg h1,
        get2_of_field host aiData g _ _ _ hg h2, get2_of_field host aiData g _ _ _ hg h3,
        get_of_field host aiData _ _ hs, get2_of_field host aiData p _ _ _ hp h4,
        get2_of_field host aiData p _ _ _ hp h5, get2_of_field host aiData p _ _ _ hp h6,
        bind, Except.bind, pure, Except.pure, JsVal.toStr]
    · exact absurd h (by simp)
  · exact absurd h (by simp)

theorem resultBody_completed (host : Host) (r : AnalysisRecord) (payload : String)
    (hstatus : r.status = "completed") (hpayload : r.aiResponse = [payload])
    (hne : payload ≠ "") :
    resultBody host r = (host.jsonParse payload).bind (aiReportText host) := by
  simp [resultBody, hstatus, hpayload, hne, bind]

theorem resultBody_completed_empty (host : Host) (r : AnalysisRecord)
    (hstatus : r.status = "completed") (hpayload : r.aiResponse = [""]) :
    resultBody host r = .ok "" := by
  simp [resultBody, hstatus, hpayload, pure, Except.pure]

theorem resultBody_unfinished (host : Host) (r : AnalysisRecord)
    (hstatus : r.status = "pending" ∨ r.status = "processing" ∨ r.status = "failed") :
    resultBody host r
      = .ok (if r.status = "pending" then
          "⏳ Your video is queued for processing. Please check back in a few moments."
        else if r.status = "processing" then
          "🔄 AI is currently analyzing your video. This may take a few minutes."
        else "❌ Analysis failed. Please try uploading the video again.") := by
  rcases hstatus with h | h | h <;> simp [resultBody, h, pure, Except.pure]

theorem payload_ne_empty (host : Host) (payload : String) (aiData : JsVal)
    (hparse : host.jsonParse payload = .ok aiData) : payload ≠ "" := by
  intro h
  obtain ⟨e, he⟩ := host.jsonParse_empty
  rw [h, he] at hparse
  exact Except.noConfusion hparse

theorem div_ne_error (a b m : String) :
    "<div class=\"" ++ a ++ b ≠ "Error checking results: " ++ m := by
  intro h
  have h2 := congrArg (fun s => s.data.head?) h
  simp at h2

/-! ## The claims -/

/-- C1, where the code departs from the claim. For a poll with a non-blank
identifier to which `getAnalysisResult` answers the absent optional, handed
over as the empty array, `checkResults` does not store the not-found notice:
the empty array is truthy, the branch `if (!response)` is skipped, the read
`analysis.status` of `response[0]` throws, and the `catch` block stores
`Error checking results: ` followed by the message of that `TypeError`. -/
theorem checkResults_absent_is_error (host : Host) (w : World)
    (hid : trim w.dom.videoId ≠ "") :
    (checkResults host (.ok (PollResponse.ofOption none)) w).app.analysisResult
        = "Error checking results: " ++ host.typeErrorMessage "undefined" "status"
      ∧ (checkResults host (.ok (PollResponse.ofOption none)) w).app.analysisResult
        ≠ notFoundText := by
  have h : (checkResults host (.ok (PollResponse.ofOption none)) w).app.analysisResult
      = "Error checking results: " ++ host.typeErrorMessage "undefined" "status" := by
    rw [checkResults_of_nonblank host _ w hid]
    rfl
  exact ⟨h, by rw [h]; exact error_ne_notFound _⟩

/-- C1 at the identifier `vid_999` on the sample host. -/
theorem checkResults_absent_is_error_witness :
    (checkResults sampleHost (.ok (PollResponse.ofOption none))
        (typeVideoId "vid_999" initialWorld)).app.analysisResult
        = "Error checking results: Cannot read properties of undefined (reading status)"
      ∧ (checkResults sampleHost (.ok (PollResponse.ofOption none))
        (typeVideoId "vid_999" initialWorld)).app.analysisResult
        ≠ "Video ID not found! Please check the ID and try again." :=
  checkResults_absent_is_error sampleHost (typeVideoId "vid_999" initialWorld) (by decide)

/-- C4. For a present record with status `completed` whose `aiResponse`
parses to a well-formed report, the text `checkResults` stores in
`analysisResult` is the status container around the header and the report
block: it holds the summary as it is and each of the six scores as its
decimal numeral followed by `/100` under its label. The text is built from
the seven fields of the report only: a second payload that reads as the same
report gives the same text. -/
theorem checkResults_completed_report (host : Host) (w : World) (r : AnalysisRecord)
    (payload : String) (aiData : JsVal) (report : AiReport)
    (hid : trim w.dom.videoId ≠ "")
    (hstatus : r.status = "completed")
    (hpayload : r.aiResponse = [payload])
    (hparse : host.jsonParse payload = .ok aiData)
    (hreport : asReport aiData = some report) :
    (checkResults host (.ok (PollResponse.ofOption (some r))) w).app.analysisResult
        = "<div class=\"" ++ ("status-" ++ r.status) ++ "\">"
            ++ ("📊 Analysis Results\n\nVideo ID: " ++ r.videoId
              ++ "\nStatus: " ++ host.toUpperCase r.status
              ++ "\nTimestamp: " ++ host.timestampToLocaleString r.timestamp
              ++ "\n\n"
              ++ ("🎯 AI Analysis Results:\n\n📈 GRADING:\n"
                ++ "• Overall Score: " ++ toString report.overall_score ++ "/100" ++ "\n"
                ++ "• Creativity: " ++ toString report.creativity ++ "/100" ++ "  \n"
                ++ "• Clarity: " ++ toString report.clarity ++ "/100" ++ "\n\n"
                ++ "📝 SUMMARY:\n" ++ report.summary ++ "\n\n🎭 PERFORMANCE METRICS:\n"
                ++ "• Confidence: " ++ toString report.confidence ++ "/100" ++ "\n"
                ++ "• Engagement: " ++ toString report.engagement ++ "/100" ++ "\n"
                ++ "• Time Management: " ++ toString report.time_management ++ "/100"))
            ++ "</div>"
    ∧ occursIn ("• Overall Score: " ++ toString report.overall_score ++ "/100")
        (checkResults host (.ok (PollResponse.ofOption (some r))) w).app.analysisResult
    ∧ occursIn ("• Creativity: " ++ toString report.creativity ++ "/100")
        (checkResults host (.ok (PollResponse.ofOption (some r))) w).app.analysisResult
    ∧ occursIn ("• Clarity: " ++ toString report.clarity ++ "/100")
        (checkResults host (.ok (PollResponse.ofOption (some r))) w).app.analysisResult
    ∧ occursIn ("📝 SUMMARY:\n" ++ report.summary)
        (checkResults host (.ok (PollResponse.ofOption (some r))) w).app.analysisResult
    ∧ occursIn ("• Confidence: " ++ toString report.confidence ++ "/100")
        (checkResults host (.ok (PollResponse.ofOption (some r))) w).app.analysisResult
    ∧ occursIn ("• Engagement: " ++ toString report.engagement ++ "/100")
        (checkResults host (.ok (PollResponse.ofOption (some r))) w).app.analysisResult
    ∧ occursIn ("• Time Management: " ++ toString report.time_management ++ "/100")
        (checkResults host (.ok (PollResponse.ofOption (some r))) w).app.analysisResult
    ∧ (∀ (otherPayload : String) (otherData : JsVal),
        host.jsonParse otherPayload = .ok otherData → asReport otherData = some report →
        (checkResults host
            (.ok (PollResponse.ofOption (some { r with aiResponse := [otherPayload] }))) w).app.analysisResult
          = (checkResults host (.ok (PollResponse.ofOption (some r))) w).app.analysisResult) := by
  have key : ∀ (q : AnalysisRecord) (p : String) (d : JsVal), q.status = "completed" →
      q.aiResponse = [p] → host.jsonParse p = .ok d → asReport d = some report →
      (checkResults host (.ok (PollResponse.ofOption (some q))) w).app.analysisResult
        = "<div class=\"" ++ ("status-" ++ q.status) ++ "\">"
            ++ ("📊 Analysis Results\n\nVideo ID: " ++ q.videoId
              ++ "\nStatus: " ++ host.toUpperCase q.status
              ++ "\nTimestamp: " ++ host.timestampToLocaleString q.timestamp
              ++ "\n\n"
              ++ ("🎯 AI Analysis Results:\n\n📈 GRADING:\n"
                ++ "• Overall Score: " ++ toString report.overall_score ++ "/100" ++ "\n"
                ++ "• Creativity: " ++ toString report.creativity ++ "/100" ++ "  \n"
                ++ "• Clarity: " ++ toString report.clarity ++ "/100" ++ "\n\n"
                ++ "📝 SUMMARY:\n" ++ report.summary ++ "\n\n🎭 PERFORMANCE METRICS:\n"
                ++ "• Confidence: " ++ toString report.confidence ++ "/100" ++ "\n"
                ++ "• Engagement: " ++ toString report.engagement ++ "/100" ++ "\n"
                ++ "• Time Management: " ++ toString report.time_management ++ "/100"))
            ++ "</div>" := by
    intro q p d hq hp hd hrep
    have hb := (resultBody_completed host q p hq hp (payload_ne_empty host p d hd)).trans
      ((congrArg (fun x => Except.bind x (aiReportText host)) hd).trans
        (aiReportText_of_report host d report hrep))
    rw [(checkResults_present host w q hid).2.1 _ hb]
    rfl
  have h := key r payload aiData hstatus hpayload hparse hreport
  refine ⟨h, ?_, ?_, ?_, ?_, ?_, ?_, ?_, ?_⟩
  · exact occursIn_of_eq _
      ("<div class=\"" ++ ("status-" ++ r.status) ++ "\">"
        ++ "📊 Analysis Results\n\nVideo ID: " ++ r.videoId
        ++ "\nStatus: " ++ host.toUpperCase r.status
        ++ "\nTimestamp: " ++ host.timestampToLocaleString r.timestamp
        ++ "\n\n" ++ "🎯 AI Analysis Results:\n\n📈 GRADING:\n") _
      ("\n" ++ "• Creativity: " ++ toString report.creativity ++ "/100" ++ "  \n"
        ++ "• Clarity: " ++ toString report.clarity ++ "/100" ++ "\n\n"
        ++ "📝 SUMMARY:\n" ++ report.summary ++ "\n\n🎭 PERFORMANCE METRICS:\n"
        ++ "• Confidence: " ++ toString report.confidence ++ "/100" ++ "\n"
        ++ "• Engagement: " ++ toString report.engagement ++ "/100" ++ "\n"
        ++ "• Time Management: " ++ toString report.time_management ++ "/100" ++ "</div>")
      (by rw [h]; simp only [String.append_assoc])
  · exact occursIn_of_eq _
      ("<div class=\"" ++ ("status-" ++ r.status) ++ "\">"
        ++ "📊 Analysis Results\n\nVideo ID: " ++ r.videoId
        ++ "\nStatus: " ++ host.toUpperCase r.status
        ++ "\nTimestamp: " ++ host.timestampToLocaleString r.timestamp
        ++ "\n\n" ++ "🎯 AI Analysis Results:\n\n📈 GRADING:\n"
        ++ "• Overall Score: " ++ toString report.overall_score ++ "/100" ++ "\n") _
      ("  \n"
        ++ "• Clarity: " ++ toString report.clarity ++ "/100" ++ "\n\n"
        ++ "📝 SUMMARY:\n" ++ report.summary ++ "\n\n🎭 PERFORMANCE METRICS:\n"
        ++ "• Confidence: " ++ toString report.confidence ++ "/100" ++ "\n"
        ++ "• Engagement: " ++ toString report.engagement ++ "/100" ++ "\n"
        ++ "• Time Management: " ++ toString report.time_management ++ "/100" ++ "</div>")
      (by rw [h]; simp only [String.append_assoc])
  · exact occursIn_of_eq _
      ("<div class=\"" ++ ("status-" ++ r.status) ++ "\">"
        ++ "📊 Analysis Results\n\nVideo ID: " ++ r.videoId
        ++ "\nStatus: " ++ host.toUpperCase r.status
        ++ "\nTimestamp: " ++ host.timestampToLocaleString r.timestamp
        ++ "\n\n" ++ "🎯 AI Analysis Results:\n\n📈 GRADING:\n"
        ++ "• Overall Score: " ++ toString report.overall_score ++ "/100" ++ "\n"
        ++ "• Creativity: " ++ toString report.creativity ++ "/100" ++ "  \n") _
      ("\n\n"
        ++ "📝 SUMMARY:\n" ++ report.summary ++ "\n\n🎭 PERFORMANCE METRICS:\n"
        ++ "• Confidence: " ++ toString report.confidence ++ "/100" ++ "\n"
        ++ "• Engagement: " ++ toString report.engagement ++ "/100" ++ "\n"
        ++ "• Time Management: " ++ toString report.time_management ++ "/100" ++ "</div>")
      (by rw [h]; simp only [String.append_assoc])
  · exact occursIn_of_eq _
      ("<div class=\"" ++ ("status-" ++ r.status) ++ "\">"
        ++ "📊 Analysis Results\n\nVideo ID: " ++ r.videoId
        ++ "\nStatus: " ++ host.toUpperCase r.status
        ++ "\nTimestamp: " ++ host.timestampToLocaleString r.timestamp
        ++ "\n\n" ++ "🎯 AI Analysis Results:\n\n📈 GRADING:\n"
        ++ "• Overall Score: " ++ toString report.overall_score ++ "/100" ++ "\n"
        ++ "• Creativity: " ++ toString report.creativity ++ "/100" ++ "  \n"
        ++ "• Clarity: " ++ toString report.clarity ++ "/100" ++ "\n\n") _
      ("\n\n🎭 PERFORMANCE METRICS:\n"
        ++ "• Confidence: " ++ toString report.confidence ++ "/100" ++ "\n"
        ++ "• Engagement: " ++ toString report.engagement ++ "/100" ++ "\n"
        ++ "• Time Management: " ++ toString report.time_management ++ "/100" ++ "</div>")
      (by rw [h]; simp only [String.append_assoc])
  · exact occursIn_of_eq _
      ("<div class=\"" ++ ("status-" ++ r.status) ++ "\">"
        ++ "📊 Analysis Results\n\nVideo ID: " ++ r.videoId
        ++ "\nStatus: " ++ host.toUpperCase r.status
        ++ "\nTimestamp: " ++ host.timestampToLocaleString r.timestamp
        ++ "\n\n" ++ "🎯 AI Analysis Results:\n\n📈 GRADING:\n"
        ++ "• Overall Score: " ++ toString report.overall_score ++ "/100" ++ "\n"
        ++ "• Creativity: " ++ toString report.creativity ++ "/100" ++ "  \n"
        ++ "• Clarity: " ++ toString report.clarity ++ "/100" ++ "\n\n"
        ++ "📝 SUMMARY:\n" ++ report.summary ++ "\n\n🎭 PERFORMANCE METRICS:\n") _
      ("\n"
        ++ "• Engagement: " ++ toString report.engagement ++ "/100" ++ "\n"
        ++ "• Time Management: " ++ toString report.time_management ++ "/100" ++ "</div>")
      (by rw [h]; simp only [String.append_assoc])
  · exact occursIn_of_eq _
      ("<div class=\"" ++ ("status-" ++ r.status) ++ "\">"
        ++ "📊 Analysis Results\n\nVideo ID: " ++ r.videoId
        ++ "\nStatus: " ++ host.toUpperCase r.status
        ++ "\nTimestamp: " ++ host.timestampToLocaleString r.timestamp
        ++ "\n\n" ++ "🎯 AI Analysis Results:\n\n📈 GRADING:\n"
        ++ "• Overall Score: " ++ toString report.overall_score ++ "/100" ++ "\n"
        ++ "• Creativity: " ++ toString report.creativity ++ "/100" ++ "  \n"
        ++ "• Clarity: " ++ toString report.clarity ++ "/100" ++ "\n\n"
        ++ "📝 SUMMARY:\n" ++ report.summary ++ "\n\n🎭 PERFORMANCE METRICS:\n"
        ++ "• Confidence: " ++ toString report.confidence ++ "/100" ++ "\n") _
      ("\n"
        ++ "• Time Management: " ++ toString report.time_management ++ "/100" ++ "</div>")
      (by rw [h]; simp only [String.append_assoc])
  · exact occursIn_of_eq _
      ("<div class=\"" ++ ("status-" ++ r.status) ++ "\">"
        ++ "📊 Analysis Results\n\nVideo ID: " ++ r.videoId
        ++ "\nStatus: " ++ host.toUpperCase r.status
        ++ "\nTimestamp: " ++ host.timestampToLocaleString r.timestamp
        ++ "\n\n" ++ "🎯 AI Analysis Results:\n\n📈 GRADING:\n"
        ++ "• Overall Score: " ++ toString report.overall_score ++ "/100" ++ "\n"
        ++ "• Creativity: " ++ toString report.creativity ++ "/100" ++ "  \n"
        ++ "• Clarity: " ++ toString report.clarity ++ "/100" ++ "\n\n"
        ++ "📝 SUMMARY:\n" ++ report.summary ++ "\n\n🎭 PERFORMANCE METRICS:\n"
        ++ "• Confidence: " ++ toString report.confidence ++ "/100" ++ "\n"
        ++ "• Engagement: " ++ toString report.engagement ++ "/100" ++ "\n") _
      "</div>"
      (by rw [h]; simp only [String.append_assoc])
  · intro otherPayload otherData hp hrep
    rw [h, key { r with aiResponse := [otherPayload] } otherPayload otherData hstatus rfl hp hrep]

set_option maxRecDepth 8000 in
/-- C4 at the sample report, whose payload carries an eighth property
`notes` that does not show in the text. -/
theorem checkResults_completed_report_witness :
    (checkResults sampleHost
        (.ok (PollResponse.ofOption (some
          { videoId := "vid_1", status := "completed", timestamp := 1700000000000000000,
            aiResponse := [sampleReportText] })))
        (typeVideoId "vid_1" initialWorld)).app.analysisResult
      = "<div class=\"status-completed\">📊 Analysis Results\n\nVideo ID: vid_1\nStatus: COMPLETED\nTimestamp: 1700000000000\n\n🎯 AI Analysis Results:\n\n📈 GRADING:\n• Overall Score: 85/100\n• Creativity: 70/100  \n• Clarity: 90/100\n\n📝 SUMMARY:\nClear and confident.\n\n🎭 PERFORMANCE METRICS:\n• Confidence: 80/100\n• Engagement: 75/100\n• Time Management: 60/100</div>" :=
  (checkResults_completed_report sampleHost (typeVideoId "vid_1" initialWorld)
    { videoId := "vid_1", status := "completed", timestamp := 1700000000000000000,
      aiResponse := [sampleReportText] }
    sampleReportText sampleReport
    { overall_score := 85, creativity := 70, clarity := 90, summary := "Clear and confident.",
      confidence := 80, engagement := 75, time_management := 60 }
    (by decide) rfl rfl (by rfl) (by rfl)).1.trans (by rfl)

/-- C5, as amended. For a present record with status `completed` whose
`aiResponse` is a non-empty string that `JSON.parse` rejects, `checkResults`
ends with `resultLoading = false` and with `analysisResult` equal to
`Error checking results: ` followed by the message of the parse error, which
is also written on the element `analysisResult`. -/
theorem checkResults_malformed_payload (host : Host) (w : World) (r : AnalysisRecord)
    (payload : String) (error : JsError)
    (hid : trim w.dom.videoId ≠ "")
    (hstatus : r.status = "completed")
    (hpayload : r.aiResponse = [payload])
    (hne : payload ≠ "")
    (hparse : host.jsonParse payload = .error error) :
    (checkResults host (.ok (PollResponse.ofOption (some r))) w).app.resultLoading = false
    ∧ (checkResults host (.ok (PollResponse.ofOption (some r))) w).app.analysisResult
        = "Error checking results: " ++ error.message
    ∧ (checkResults host (.ok (PollResponse.ofOption (some r))) w).dom.analysisResult.innerHTML
        = "<div class=\"error-message\">" ++ ("Error checking results: " ++ error.message)
            ++ "</div>" := by
  have hb := (resultBody_completed host r payload hstatus hpayload hne).trans
    (congrArg (fun x => Except.bind x (aiReportText host)) hparse)
  exact ⟨(checkResults_present host w r hid).1,
    (checkResults_present host w r hid).2.2 error hb⟩

/-- C5 as amended, at the payload `not json` on the sample host. -/
theorem checkResults_malformed_payload_witness :
    (checkResults sampleHost
        (.ok (PollResponse.ofOption (some
          { videoId := "vid_1", status := "completed", timestamp := 0,
            aiResponse := ["not json"] })))
        (typeVideoId "vid_1" initialWorld)).app.resultLoading = false
    ∧ (checkResults sampleHost
        (.ok (PollResponse.ofOption (some
          { videoId := "vid_1", status := "completed", timestamp := 0,
            aiResponse := ["not json"] })))
        (typeVideoId "vid_1" initialWorld)).app.analysisResult
      = "Error checking results: Unexpected token" := by
  have h := checkResults_malformed_payload sampleHost (typeVideoId "vid_1" initialWorld)
    { videoId := "vid_1", status := "completed", timestamp := 0,
      aiResponse := ["not json"] } "not json" ⟨"Unexpected token"⟩ (by decide) rfl rfl
    (by decide) (by rfl)
  exact ⟨h.1, h.2.1⟩

/-- C5 as stated fails for the empty string: it is not valid JSON, yet the
guard `analysis.aiResponse[0]` is falsy for it, so nothing is parsed and the
stored text is the status container with the header only, not an error
message. -/
theorem checkResults_empty_payload_not_reported :
    sampleHost.jsonParse "" = .error ⟨"Unexpected token"⟩
    ∧ (checkResults sampleHost
        (.ok (PollResponse.ofOption (some
          { videoId := "vid_1", status := "completed", timestamp := 0, aiResponse := [""] })))
        (typeVideoId "vid_1" initialWorld)).app.analysisResult
      = "<div class=\"status-completed\">📊 Analysis Results\n\nVideo ID: vid_1\nStatus: COMPLETED\nTimestamp: 0\n\n</div>"
    ∧ (checkResults sampleHost
        (.ok (PollResponse.ofOption (some
          { videoId := "vid_1", status := "completed", timestamp := 0, aiResponse := [""] })))
        (typeVideoId "vid_1" initialWorld)).app.analysisResult
      ≠ "Error checking results: " ++ "Unexpected token" := by
  have h : (checkResults sampleHost
        (.ok (PollResponse.ofOption (some
          { videoId := "vid_1", status := "completed", timestamp := 0, aiResponse := [""] })))
        (typeVideoId "vid_1" initialWorld)).app.analysisResult
      = "<div class=\"status-completed\">📊 Analysis Results\n\nVideo ID: vid_1\nStatus: COMPLETED\nTimestamp: 0\n\n</div>" := by
    rfl
  refine ⟨by rfl, h, ?_⟩
  rw [h]
  intro hab
  have hc := congrArg (fun s => s.data.head?) hab
  revert hc
  decide

/-- C6. For a present record with status `pending`, `processing` or `failed`
the text stored in `analysisResult` is the header followed by the notice of
that status, inside a `div` whose class is `status-` followed by the status.
The text is the same for every value of `aiResponse`, the same on every host
that agrees on `toUpperCase` and on the timestamp (so whatever `JSON.parse`
would do), and it is never an `Error checking results: ` message. -/
theorem checkResults_unfinished_status (host : Host) (w : World) (r : AnalysisRecord)
    (hid : trim w.dom.videoId ≠ "")
    (hstatus : r.status = "pending" ∨ r.status = "processing" ∨ r.status = "failed") :
    (checkResults host (.ok (PollResponse.ofOption (some r))) w).app.analysisResult
        = "<div class=\"" ++ ("status-" ++ r.status) ++ "\">"
            ++ ("📊 Analysis Results\n\nVideo ID: " ++ r.videoId
              ++ "\nStatus: " ++ host.toUpperCase r.status
              ++ "\nTimestamp: " ++ host.timestampToLocaleString r.timestamp
              ++ "\n\n"
              ++ (if r.status = "pending" then
                  "⏳ Your video is queued for processing. Please check back in a few moments."
                else if r.status = "processing" then
                  "🔄 AI is currently analyzing your video. This may take a few minutes."
                else "❌ Analysis failed. Please try uploading the video again."))
            ++ "</div>"
    ∧ (∀ aiResponse : List String,
        (checkResults host
            (.ok (PollResponse.ofOption (some { r with aiResponse := aiResponse }))) w).app.analysisResult
          = (checkResults host (.ok (PollResponse.ofOption (some r))) w).app.analysisResult)
    ∧ (∀ other : Host, other.toUpperCase = host.toUpperCase →
        other.timestampToLocaleString = host.timestampToLocaleString →
        (checkResults other (.ok (PollResponse.ofOption (some r))) w).app.analysisResult
          = (checkResults host (.ok (PollResponse.ofOption (some r))) w).app.analysisResult)
    ∧ (∀ message : String,
        (checkResults host (.ok (PollResponse.ofOption (some r))) w).app.analysisResult
          ≠ "Error checking results: " ++ message) := by
  have key : ∀ (h : Host) (q : AnalysisRecord),
      (q.status = "pending" ∨ q.status = "processing" ∨ q.status = "failed") →
      (checkResults h (.ok (PollResponse.ofOption (some q))) w).app.analysisResult
        = "<div class=\"" ++ ("status-" ++ q.status) ++ "\">"
            ++ ("📊 Analysis Results\n\nVideo ID: " ++ q.videoId
              ++ "\nStatus: " ++ h.toUpperCase q.status
              ++ "\nTimestamp: " ++ h.timestampToLocaleString q.timestamp
              ++ "\n\n"
              ++ (if q.status = "pending" then
                  "⏳ Your video is queued for processing. Please check back in a few moments."
                else if q.status = "processing" then
                  "🔄 AI is currently analyzing your video. This may take a few minutes."
                else "❌ Analysis failed. Please try uploading the video again."))
            ++ "</div>" := by
    intro h q hq
    rw [(checkResults_present h w q hid).2.1 _ (resultBody_unfinished h q hq)]
    rfl
  refine ⟨key host r hstatus, ?_, ?_, ?_⟩
  · intro aiResponse
    rw [key host r hstatus, key host { r with aiResponse := aiResponse } hstatus]
  · intro other hu ht
    rw [key host r hstatus, key other r hstatus, hu, ht]
  · intro message
    rw [key host r hstatus]
    exact div_ne_error _ _ _

/-- C6 at a `processing` record whose `aiResponse` is not JSON. -/
theorem checkResults_unfinished_status_witness :
    (checkResults sampleHost
        (.ok (PollResponse.ofOption (some
          { videoId := "vid_1", status := "processing", timestamp := 1700000000000000000,
            aiResponse := ["not json"] })))
        (typeVideoId "vid_1" initialWorld)).app.analysisResult
      = "<div class=\"status-processing\">📊 Analysis Results\n\nVideo ID: vid_1\nStatus: PROCESSING\nTimestamp: 1700000000000\n\n🔄 AI is currently analyzing your video. This may take a few minutes.</div>" :=
  (checkResults_unfinished_status sampleHost (typeVideoId "vid_1" initialWorld)
    { videoId := "vid_1", status := "processing", timestamp := 1700000000000000000,
      aiResponse := ["not json"] } (by decide) (by decide)).1.trans (by rfl)

/-- C7, where the code departs from the claim. In an upload and in a poll
that reach the remote call, `render` is called once, after the loading state
is set and before the call. The continuation then sets `uploadLoading` (or
`resultLoading`) to `false` and stores the result, and returns without a
call of `render`: the log ends with the remote call, and the state last
rendered is not the state the flow ends in. -/
theorem render_only_before_remote_call (host : Host)
    (uploadAnswer : Except JsError UploadResponse) (pollAnswer : Except JsError PollResponse)
    (w : World) (file : File)
    (hfile : w.dom.videoFile = some file) (hsize : file.size ≤ 52428800)
    (hid : trim w.dom.videoId ≠ "") :
    ((uploadVideo uploadAnswer w).log
        = w.log ++ [Event.render { w.app with uploadLoading := true, uploadResult := "" },
                    Event.analyzeVideo file]
      ∧ (uploadVideo uploadAnswer w).app.uploadLoading = false
      ∧ (renderCalls (uploadVideo uploadAnswer w).log).getLast?
          ≠ some (uploadVideo uploadAnswer w).app)
    ∧ ((checkResults host pollAnswer w).log
        = w.log ++ [Event.render { w.app with resultLoading := true, analysisResult := "" },
                    Event.getAnalysisResult (trim w.dom.videoId)]
      ∧ (checkResults host pollAnswer w).app.resultLoading = false
      ∧ (renderCalls (checkResults host pollAnswer w).log).getLast?
          ≠ some (checkResults host pollAnswer w).app) := by
  have hmax : maxFileSize = 52428800 := by decide
  have hu := uploadVideo_log_of_valid uploadAnswer w file hfile (hmax ▸ hsize)
  have hul : (uploadVideo uploadAnswer w).app.uploadLoading = false := by
    rw [uploadVideo_of_valid uploadAnswer w file hfile (hmax ▸ hsize)]
    cases uploadAnswer <;> rfl
  have hp := checkResults_log_of_nonblank host pollAnswer w hid
  have hpl : (checkResults host pollAnswer w).app.resultLoading = false := by
    rw [checkResults_of_nonblank host pollAnswer w hid]
    exact checkResultsResume_loading _ _ _
  refine ⟨⟨hu, hul, ?_⟩, ⟨hp, hpl, ?_⟩⟩
  · rw [hu]
    intro h
    have h2 : (uploadVideo uploadAnswer w).app.uploadLoading = true := by
      simp [renderCalls, List.filterMap_append] at h
      rw [← h]
    rw [hul] at h2
    exact Bool.noConfusion h2
  · rw [hp]
    intro h
    have h2 : (checkResults host pollAnswer w).app.resultLoading = true := by
      simp [renderCalls, List.filterMap_append] at h
      rw [← h]
    rw [hpl] at h2
    exact Bool.noConfusion h2

/-- C7 at an upload of a file of 1024 bytes and a poll for `vid_1`. -/
theorem render_only_before_remote_call_witness :
    (uploadVideo (.ok { videoId := "vid_123", status := "pending" })
        (typeVideoId "vid_1" (worldWithFile (fileOfSize 1024)))).log
      = [Event.render { greeting := "", uploadResult := "", analysisResult := "",
                        uploadLoading := false, resultLoading := false },
         Event.render { greeting := "", uploadResult := "", analysisResult := "",
                        uploadLoading := true, resultLoading := false },
         Event.analyzeVideo (fileOfSize 1024)]
    ∧ (uploadVideo (.ok { videoId := "vid_123", status := "pending" })
        (typeVideoId "vid_1" (worldWithFile (fileOfSize 1024)))).app.uploadLoading = false
    ∧ (checkResults sampleHost (.ok (PollResponse.ofOption none))
        (typeVideoId "vid_1" (worldWithFile (fileOfSize 1024)))).log
      = [Event.render { greeting := "", uploadResult := "", analysisResult := "",
                        uploadLoading := false, resultLoading := false },
         Event.render { greeting := "", uploadResult := "", analysisResult := "",
                        uploadLoading := false, resultLoading := true },
         Event.getAnalysisResult "vid_1"]
    ∧ (checkResults sampleHost (.ok (PollResponse.ofOption none))
        (typeVideoId "vid_1" (worldWithFile (fileOfSize 1024)))).app.resultLoading = false := by
  have h := render_only_before_remote_call sampleHost
    (.ok { videoId := "vid_123", status := "pending" }) (.ok (PollResponse.ofOption none))
    (typeVideoId "vid_1" (worldWithFile (fileOfSize 1024))) (fileOfSize 1024) rfl
    (by decide) (by decide)
  exact ⟨h.1.1, h.1.2.1, h.2.1, h.2.2.1⟩

/-- C8. After a successful upload of a file of at most `52428800` bytes,
`uploadResult` is the confirmation text with the `videoId` and the `status`
of the response, the name of the file and its size in MB followed by ` MB`.
The size is printed as the integer part, a point and two decimals of the
number of hundredths nearest to `size / 1024 / 1024` (the larger on a tie);
for `10 * 1024 * 1024` bytes it is `10.00`. -/
theorem uploadVideo_confirmation_message (w : World) (file : File) (response : UploadResponse)
    (hfile : w.dom.videoFile = some file) (hsize : file.size ≤ 52428800) :
    (uploadVideo (.ok response) w).app.uploadResult
        = "✅ Upload Successful!\n\nVideo ID: " ++ response.videoId
          ++ "\nStatus: " ++ response.status
          ++ "\nFile: " ++ file.name
          ++ "\nSize: " ++ sizeInMB file.size ++ " MB"
          ++ "\n\n💡 Copy the Video ID above and use it in the \"Check Results\" section below to see your analysis results!"
    ∧ occursIn response.videoId (uploadVideo (.ok response) w).app.uploadResult
    ∧ occursIn response.status (uploadVideo (.ok response) w).app.uploadResult
    ∧ occursIn file.name (uploadVideo (.ok response) w).app.uploadResult
    ∧ occursIn (sizeInMB file.size ++ " MB") (uploadVideo (.ok response) w).app.uploadResult
    ∧ sizeInMB file.size
        = Nat.repr (hundredthsOfMB file.size / 100) ++ "."
          ++ String.mk [Nat.digitChar (hundredthsOfMB file.size / 10 % 10),
                        Nat.digitChar (hundredthsOfMB file.size % 10)]
    ∧ 2 * (hundredthsOfMB file.size * 1048576) ≤ 200 * file.size + 1048576
    ∧ 200 * file.size < 2 * (hundredthsOfMB file.size * 1048576) + 1048576
    ∧ sizeInMB (10 * 1024 * 1024) = "10.00" := by
  have hmax : maxFileSize = 52428800 := by decide
  have h := (uploadVideo_success w file response hfile (hmax ▸ hsize)).1
  have hn := hundredthsOfMB_nearest file.size
  refine ⟨h, ?_, ?_, ?_, ?_, fixed2_eq _, hn.1, hn.2, by decide⟩
  · exact occursIn_of_eq _ "✅ Upload Successful!\n\nVideo ID: " _
      ("\nStatus: " ++ response.status ++ "\nFile: " ++ file.name
        ++ "\nSize: " ++ sizeInMB file.size ++ " MB"
        ++ "\n\n💡 Copy the Video ID above and use it in the \"Check Results\" section below to see your analysis results!")
      (by rw [h]; simp only [uploadResultText, String.append_assoc])
  · exact occursIn_of_eq _ ("✅ Upload Successful!\n\nVideo ID: " ++ response.videoId
        ++ "\nStatus: ") _
      ("\nFile: " ++ file.name
        ++ "\nSize: " ++ sizeInMB file.size ++ " MB"
        ++ "\n\n💡 Copy the Video ID above and use it in the \"Check Results\" section below to see your analysis results!")
      (by rw [h]; simp only [uploadResultText, String.append_assoc])
  · exact occursIn_of_eq _ ("✅ Upload Successful!\n\nVideo ID: " ++ response.videoId
        ++ "\nStatus: " ++ response.status ++ "\nFile: ") _
      ("\nSize: " ++ sizeInMB file.size ++ " MB"
        ++ "\n\n💡 Copy the Video ID above and use it in the \"Check Results\" section below to see your analysis results!")
      (by rw [h]; simp only [uploadResultText, String.append_assoc])
  · exact occursIn_of_eq _ ("✅ Upload Successful!\n\nVideo ID: " ++ response.videoId
        ++ "\nStatus: " ++ response.status ++ "\nFile: " ++ file.name ++ "\nSize: ") _
      "\n\n💡 Copy the Video ID above and use it in the \"Check Results\" section below to see your analysis results!"
      (by rw [h]; simp only [uploadResultText, String.append_assoc])

/-- C8 at a file of `10 * 1024 * 1024` bytes answered with `vid_123` and
`pending`. -/
theorem uploadVideo_confirmation_message_witness :
    (uploadVideo (.ok { videoId := "vid_123", status := "pending" })
        (worldWithFile (fileOfSize (10 * 1024 * 1024)))).app.uploadResult
      = "✅ Upload Successful!\n\nVideo ID: vid_123\nStatus: pending\nFile: talk.mp4\nSize: 10.00 MB\n\n💡 Copy the Video ID above and use it in the \"Check Results\" section below to see your analysis results!"
    ∧ occursIn "vid_123" (uploadVideo (.ok { videoId := "vid_123", status := "pending" })
        (worldWithFile (fileOfSize (10 * 1024 * 1024)))).app.uploadResult
    ∧ occursIn "10.00 MB" (uploadVideo (.ok { videoId := "vid_123", status := "pending" })
        (worldWithFile (fileOfSize (10 * 1024 * 1024)))).app.uploadResult := by
  have h := uploadVideo_confirmation_message (worldWithFile (fileOfSize (10 * 1024 * 1024)))
    (fileOfSize (10 * 1024 * 1024)) { videoId := "vid_123", status := "pending" } rfl
    (by decide)
  exact ⟨h.1.trans (by rfl), h.2.1, h.2.2.2.2.1⟩

/-- C9, where the code departs from the claim. When a poll for `idA` and then
a poll for `idB` are both in flight and the response of the second is
processed before the response of the first, the text left in
`analysisResult` is the one of the first request (what a poll for `idA`
alone stores), not the one of the more recent request. -/
theorem overlappingPolls_result_is_first_request (host : Host) (idA idB : String)
    (answerA answerB : Except JsError PollResponse) (w : World)
    (hA : trim idA ≠ "") (hB : trim idB ≠ "") :
    getAnalysisResultCalls (overlappingPolls host idA idB answerA answerB w).log
        = getAnalysisResultCalls w.log ++ [trim idA, trim idB]
    ∧ (overlappingPolls host idA idB answerA answerB w).app.analysisResult
        = (checkResults host answerA (typeVideoId idA w)).app.analysisResult := by
  constructor
  · unfold overlappingPolls
    simp [checkResultsResume_log, checkResultsBegin, typeVideoId, hA, hB, render,
      getAnalysisResultCalls, List.filterMap_append]
  · rw [checkResults_of_nonblank host answerA (typeVideoId idA w) hA]
    unfold overlappingPolls
    exact checkResultsResume_result host answerA _ _

/-- C9 at the identifiers `vid_A` (answered `pending`) and `vid_B`
(answered `failed`): the text left is the one for `vid_A`. -/
theorem overlappingPolls_result_is_first_request_witness :
    (overlappingPolls sampleHost "vid_A" "vid_B"
        (.ok (PollResponse.ofOption (some
          { videoId := "vid_A", status := "pending", timestamp := 0, aiResponse := [] })))
        (.ok (PollResponse.ofOption (some
          { videoId := "vid_B", status := "failed", timestamp := 0, aiResponse := [] })))
        initialWorld).app.analysisResult
      = "<div class=\"status-pending\">📊 Analysis Results\n\nVideo ID: vid_A\nStatus: PENDING\nTimestamp: 0\n\n⏳ Your video is queued for processing. Please check back in a few moments.</div>"
    ∧ (checkResults sampleHost
        (.ok (PollResponse.ofOption (some
          { videoId := "vid_B", status := "failed", timestamp := 0, aiResponse := [] })))
        (typeVideoId "vid_B" initialWorld)).app.analysisResult
      = "<div class=\"status-failed\">📊 Analysis Results\n\nVideo ID: vid_B\nStatus: FAILED\nTimestamp: 0\n\n❌ Analysis failed. Please try uploading the video again.</div>"
    ∧ getAnalysisResultCalls (overlappingPolls sampleHost "vid_A" "vid_B"
        (.ok (PollResponse.ofOption (some
          { videoId := "vid_A", status := "pending", timestamp := 0, aiResponse := [] })))
        (.ok (PollResponse.ofOption (some
          { videoId := "vid_B", status := "failed", timestamp := 0, aiResponse := [] })))
        initialWorld).log = ["vid_A", "vid_B"]
    ∧ (overlappingPolls sampleHost "vid_A" "vid_B"
        (.ok (PollResponse.ofOption (some
          { videoId := "vid_A", status := "pending", timestamp := 0, aiResponse := [] })))
        (.ok (PollResponse.ofOption (some
          { videoId := "vid_B", status := "failed", timestamp := 0, aiResponse := [] })))
        initialWorld).app.analysisResult
      ≠ (checkResults sampleHost
        (.ok (PollResponse.ofOption (some
          { videoId := "vid_B", status := "failed", timestamp := 0, aiResponse := [] })))
        (typeVideoId "vid_B" initialWorld)).app.analysisResult := by
  have h := overlappingPolls_result_is_first_request sampleHost "vid_A" "vid_B"
    (.ok (PollResponse.ofOption (some
      { videoId := "vid_A", status := "pending", timestamp := 0, aiResponse := [] })))
    (.ok (PollResponse.ofOption (some
      { videoId := "vid_B", status := "failed", timestamp := 0, aiResponse := [] })))
    initialWorld (by decide) (by decide)
  refine ⟨h.2.trans (by rfl), by rfl, h.1, ?_⟩
  rw [h.2]
  intro hab
  have hc := congrArg (fun s => s.data.get? 19) hab
  revert hc
  decide

end Evalyn
